import Mathlib

/-!
Shallow embedding of the episode-lifecycle controller `PettingZooGenerals`
(`generals/envs/pettingzoo_generals.py`). The external collaborators (turn
engine, grid factory, replay recorder, grid parsing) are modelled from the
specification's interface contracts, since their modules are not part of the
sources; the controller itself is translated statement by statement from the
Python source. Python in-place mutation becomes explicit state passing: every
controller method returns the post-call controller state alongside its result,
also when the call raises, since a Python exception leaves earlier attribute
assignments in place.
-/

set_option autoImplicit false

/-- Agent identifiers are caller-supplied strings, unique per configuration. -/
abbrev AgentID := String

/-- The four movement directions of an action. -/
inductive Direction where
  | up
  | down
  | left
  | right
deriving DecidableEq, Repr, Inhabited

/-- Modelled from the spec: the five-field structured action
`(pass, sourceRow, sourceCol, direction, split)`; the source's name `Action`
is taken by Mathlib, hence `AgentAction`. The controller never inspects field
values, only the presence of an entry per agent. -/
structure AgentAction where
  passTurn : Bool
  sourceRow : Nat
  sourceCol : Nat
  direction : Direction
  split : Bool
deriving DecidableEq, Repr, Inhabited

/-- Modelled from the spec: the per-agent observation produced by the external
engine. The controller treats observations opaquely (it forwards them to the
pluggable reward function and caches them), so the grid channels are abstracted
to scalar summary fields. -/
structure Observation where
  timestep : Nat
  owned_land_count : Nat
  owned_army_count : Nat
  opponent_land_count : Nat
  opponent_army_count : Nat
  priority : Bool
deriving DecidableEq, Repr, Inhabited

/-- Failure modes surfaced by the controller: Python `AttributeError` (carrying
the missing attribute name), `KeyError` (carrying the missing agent id),
`AssertionError`, and the `InvalidGrid` failure of explicit map-text parsing. -/
inductive PyError where
  | attributeError : String → PyError
  | keyError : AgentID → PyError
  | assertionError : String → PyError
  | invalidGrid : PyError
deriving DecidableEq, Repr

/-- Python dictionary lookup `d[k]`, modelled on association lists; `none`
corresponds to a `KeyError` at the call site. -/
def dget {β : Type} (k : AgentID) : List (AgentID × β) → Option β
  | [] => none
  | p :: rest => if k = p.1 then some p.2 else dget k rest

/-- Whether an `Except` value is a success. -/
def exceptIsOk {ε α : Type} : Except ε α → Bool
  | .ok _ => true
  | .error _ => false

/-- Modelled from the spec: a parsed explicit map. The grid module is not under
the given sources; the spec requires only that malformed explicit map text fail
with `InvalidGrid`. Malformedness here: empty map text or non-rectangular
rows. -/
structure Grid where
  rows : List String
deriving DecidableEq, Repr

/-- Splits text into lines at newline characters (structural recursion over
the character list, so it reduces inside the kernel). -/
def splitLinesAux : List Char → List Char → List String
  | [], acc => [String.mk acc.reverse]
  | ch :: cs, acc =>
    if ch = '\n' then String.mk acc.reverse :: splitLinesAux cs []
    else splitLinesAux cs (ch :: acc)

/-- Splits a string into its lines. -/
def splitLines (s : String) : List String :=
  splitLinesAux s.data []

/-- Modelled from the spec: the `Grid(map_text)` constructor, failing with
`InvalidGrid` on malformed text; malformed here means no non-blank line or
non-rectangular rows. -/
def Grid.parseMap (s : String) : Except PyError Grid :=
  match (splitLines s).filter (fun l => !l.data.isEmpty) with
  | [] => .error .invalidGrid
  | l :: rest =>
    if rest.all (fun r => r.length == l.length) then .ok ⟨l :: rest⟩
    else .error .invalidGrid

/-- Equality of `Except` values is decidable when it is for both components. -/
instance {ε α : Type} [DecidableEq ε] [DecidableEq α] : DecidableEq (Except ε α) :=
  fun x y =>
    match x, y with
    | .ok a, .ok b => if h : a = b then .isTrue (by rw [h]) else .isFalse (by simp [h])
    | .error a, .error b => if h : a = b then .isTrue (by rw [h]) else .isFalse (by simp [h])
    | .ok _, .error _ => .isFalse (by simp)
    | .error _, .ok _ => .isFalse (by simp)

/-- Modelled from the spec: the grid-factory collaborator — a padding flag,
maximum grid dimensions, a settable random source (`set_rng`) and grid
generation (`generate`); generation is a pure function of the stored random
source. -/
structure GridFactory where
  padding : Bool
  max_grid_dims : Nat × Nat
  rng : Option Nat
  gen : Option Nat → Grid

/-- `grid_factory.set_rng(rng=np.random.default_rng(seed))`. -/
def GridFactory.set_rng (f : GridFactory) (seed : Option Nat) : GridFactory :=
  { f with rng := seed }

/-- `grid_factory.generate()`. -/
def GridFactory.generate (f : GridFactory) : Grid :=
  f.gen f.rng

/-- A joint action: the dictionary from agent id to submitted action. -/
abbrev JointAction := List (AgentID × AgentAction)

/-- Modelled from the spec: the black-box turn-engine contract — `new(grid,
agents)`, `step(jointAction)` returning observation and info dictionaries while
mutating the engine state, `is_done`, the turn counter `time`,
`agent_observation` and `grid_dims`. `σ` is the engine's private state type. -/
structure Engine (σ : Type) where
  new : Grid → List AgentID → σ
  stepFn : σ → JointAction → σ × List (AgentID × Observation) × List (AgentID × Unit)
  is_done : σ → Bool
  time : σ → Nat
  agent_observation : σ → AgentID → Observation
  grid_dims : σ → Nat × Nat

/-- Modelled from the spec: the episode recorder `Replay` — `add_state` appends
a deep snapshot of engine state, `store` persists once. Deep copying is value
semantics in this embedding; `store_count` counts the `store` calls. -/
structure Replay (σ : Type) where
  name : String
  states : List σ
  store_count : Nat

/-- The observation-space descriptor: the grid dimensions together with the
bounds the source builds the gymnasium space from (`max_army_value = 100000`,
`max_timestep = 100000`, `max_land_value = prod dims`). -/
structure ObsSpace where
  dims : Nat × Nat
  max_army_value : Nat
  max_timestep : Nat
  max_land_value : Nat
deriving DecidableEq, Repr

/-- The action-space descriptor `MultiDiscrete [2, rows, cols, 4, 2]`. -/
abbrev ActSpace := List Nat

/-- The five-tuple returned by `step`. `terminated` and `truncated` are single
booleans shared by every agent, not per-agent dictionaries. -/
structure StepResult where
  observations : List (AgentID × Observation)
  rewards : List (AgentID × Int)
  terminated : Bool
  truncated : Bool
  infos : List (AgentID × Unit)
deriving DecidableEq, Repr, Inhabited

/-- The recognized `reset` options: optional explicit map text under `"grid"`
and an optional recording name under `"replay_file"`. -/
structure ResetOptions where
  grid : Option String
  replay_file : Option String
deriving DecidableEq, Repr, Inhabited

/-- The controller state of `PettingZooGenerals`: the constructor-configured
fields, the active-agent list `agents`, the optional engine instance `game`
(absent before the first reset), the prior-observation cache, the optional
recorder, the GUI flag, and the `functools.cache` memoization tables of
`observation_space` / `action_space`. -/
structure PettingZooGenerals (σ : Type) where
  possible_agents : List AgentID
  agents : List AgentID
  grid_factory : GridFactory
  truncation : Option Nat
  reward_fn : Observation → AgentAction → Observation → Int
  render_mode : Bool
  prior_observations : Option (List (AgentID × Observation))
  game : Option σ
  replay : Option (Replay σ)
  gui : Bool
  obs_space_cache : List (AgentID × ObsSpace)
  act_space_cache : List (AgentID × ActSpace)

/-- `PettingZooGenerals.__init__`: stores the configuration, sets the
prior-observation cache to unset, asserts agent-id uniqueness; no game instance
exists yet (`game = none`) and the space caches are empty. -/
def PettingZooGenerals.mkEnv (σ : Type) (agents : List AgentID)
    (grid_factory : GridFactory) (truncation : Option Nat)
    (reward_fn : Observation → AgentAction → Observation → Int)
    (render_mode : Bool) : Except PyError (PettingZooGenerals σ) :=
  if agents.Nodup then
    .ok { possible_agents := agents
          agents := agents
          grid_factory := grid_factory
          truncation := truncation
          reward_fn := reward_fn
          render_mode := render_mode
          prior_observations := none
          game := none
          replay := none
          gui := false
          obs_space_cache := []
          act_space_cache := [] }
  else .error (.assertionError "Agent ids must be unique")

/-- `observation_space(agent)` with its `functools.cache` memoization modelled
as an explicit per-controller table: a cache hit returns the stored descriptor
unchanged; a miss asserts the agent is known, takes the dimensions from the
factory's maximum (padding on) or from the current game (padding off — an
`AttributeError` before the first reset), and stores the result. -/
def PettingZooGenerals.observation_space {σ : Type} (E : Engine σ)
    (c : PettingZooGenerals σ) (agent : AgentID) :
    Except PyError ObsSpace × PettingZooGenerals σ :=
  match dget agent c.obs_space_cache with
  | some v => (.ok v, c)
  | none =>
    if agent ∈ c.possible_agents then
      match (if c.grid_factory.padding then some c.grid_factory.max_grid_dims
             else c.game.map E.grid_dims) with
      | some dims =>
        let v : ObsSpace := ⟨dims, 100000, 100000, dims.1 * dims.2⟩
        (.ok v, { c with obs_space_cache := (agent, v) :: c.obs_space_cache })
      | none => (.error (.attributeError "game"), c)
    else (.error (.assertionError agent), c)

/-- `action_space(agent)`, cached the same way; the descriptor is
`MultiDiscrete [2, rows, cols, 4, 2]`. -/
def PettingZooGenerals.action_space {σ : Type} (E : Engine σ)
    (c : PettingZooGenerals σ) (agent : AgentID) :
    Except PyError ActSpace × PettingZooGenerals σ :=
  match dget agent c.act_space_cache with
  | some v => (.ok v, c)
  | none =>
    if agent ∈ c.possible_agents then
      match (if c.grid_factory.padding then some c.grid_factory.max_grid_dims
             else c.game.map E.grid_dims) with
      | some dims =>
        let v : ActSpace := [2, dims.1, dims.2, 4, 2]
        (.ok v, { c with act_space_cache := (agent, v) :: c.act_space_cache })
      | none => (.error (.attributeError "game"), c)
    else (.error (.assertionError agent), c)

/-- Line 166 of the source:
`truncated = False if self.truncation is None else self.game.time >= self.truncation`. -/
def truncFlag : Option Nat → Nat → Bool
  | none, _ => false
  | some t, time => decide (time ≥ t)

/-- The reward dictionary comprehension of `step` (lines 174-183): for each
active agent in order, look up its prior observation, its submitted action,
then its new observation; a missing key raises `KeyError` naming the agent and
abandons the comprehension. -/
def compute_rewards (reward_fn : Observation → AgentAction → Observation → Int)
    (prior : List (AgentID × Observation)) (actions : JointAction)
    (obs : List (AgentID × Observation)) :
    List AgentID → Except PyError (List (AgentID × Int))
  | [] => .ok []
  | a :: rest =>
    match dget a prior with
    | none => .error (.keyError a)
    | some p =>
      match dget a actions with
      | none => .error (.keyError a)
      | some act =>
        match dget a obs with
        | none => .error (.keyError a)
        | some o =>
          match compute_rewards reward_fn prior actions obs rest with
          | .error e => .error e
          | .ok rs => .ok ((a, reward_fn p act o) :: rs)

/-- The reward branch of `step` (lines 169-183): zero for every active agent
when the prior-observation cache is unset, otherwise the reward dictionary
comprehension. -/
def rewards_block {σ : Type} (c : PettingZooGenerals σ) (actions : JointAction)
    (observations : List (AgentID × Observation)) :
    Except PyError (List (AgentID × Int)) :=
  match c.prior_observations with
  | none => .ok (c.agents.map (fun a => (a, (0 : Int))))
  | some prior => compute_rewards c.reward_fn prior actions observations c.agents

/-- `reset(seed, options)`: overwrites the active-agent list with the full
configured set FIRST; then either parses the explicit grid from the options
(`InvalidGrid` aborts here, with the agent list already overwritten) or seeds
the factory's random source and generates a grid; builds a fresh engine
instance; raises the GUI flag when rendering; when `"replay_file"` is given
opens a recorder and appends the initial snapshot, otherwise drops any previous
recorder; returns the initial observations and empty infos. The
prior-observation cache is not touched anywhere in this method. -/
def PettingZooGenerals.reset {σ : Type} (E : Engine σ) (c0 : PettingZooGenerals σ)
    (seed : Option Nat) (options : ResetOptions) :
    Except PyError (List (AgentID × Observation) × List (AgentID × Unit)) ×
      PettingZooGenerals σ :=
  let c := { c0 with agents := c0.possible_agents }
  let gridStep : Except PyError (Grid × PettingZooGenerals σ) :=
    match options.grid with
    | some s =>
      match Grid.parseMap s with
      | .error e => .error e
      | .ok g => .ok (g, c)
    | none =>
      let gf := c.grid_factory.set_rng seed
      .ok (gf.generate, { c with grid_factory := gf })
  match gridStep with
  | .error e => (.error e, c)
  | .ok (grid, c1) =>
    let g := E.new grid c1.agents
    let c2 := { c1 with game := some g, gui := c1.render_mode || c1.gui }
    let c3 :=
      match options.replay_file with
      | some nm => { c2 with replay := some ⟨nm, [g], 0⟩ }
      | none => { c2 with replay := none }
    let observations := c3.agents.map (fun a => (a, E.agent_observation g a))
    let infos := c3.agents.map (fun a => (a, ()))
    (.ok (observations, infos), c3)

/-- `step(actions)`: forwards the joint action to the engine unconditionally
(no presence validation; `AttributeError` when no game exists yet), computes
the shared `truncated` / `terminated` booleans from the post-step engine state,
computes rewards — zero for every active agent when the prior-observation cache
is unset, otherwise through the reward function, where a missing dictionary key
aborts the call after the engine has already advanced — then appends a recorder
snapshot, empties the active-agent list and finalizes the recorder when the
episode ends, caches the new observations, and returns the five-tuple. -/
def PettingZooGenerals.step {σ : Type} (E : Engine σ) (c : PettingZooGenerals σ)
    (actions : JointAction) : Except PyError StepResult × PettingZooGenerals σ :=
  match c.game with
  | none => (.error (.attributeError "game"), c)
  | some g =>
    let sres := E.stepFn g actions
    let g1 := sres.1
    let observations := sres.2.1
    let infos := sres.2.2
    let c1 := { c with game := some g1 }
    let truncated := truncFlag c1.truncation (E.time g1)
    let terminated := E.is_done g1
    let rewardsE := rewards_block c1 actions observations
    match rewardsE with
    | .error e => (.error e, c1)
    | .ok rewards =>
      let c2 :=
        match c1.replay with
        | some r => { c1 with replay := some ⟨r.name, r.states ++ [g1], r.store_count⟩ }
        | none => c1
      let c3 :=
        if terminated || truncated then
          { c2 with agents := []
                    replay := match c2.replay with
                      | some r => some ⟨r.name, r.states, r.store_count + 1⟩
                      | none => none }
        else c2
      let c4 := { c3 with prior_observations := some observations }
      (.ok ⟨observations, rewards, terminated, truncated, infos⟩, c4)

/-- The first active agent (in list order) whose action is missing from the
joint action — the agent named by the `KeyError` the reward comprehension
raises. -/
def firstMissing (agents : List AgentID) (actions : JointAction) : Option AgentID :=
  match agents with
  | [] => none
  | a :: rest => if dget a actions = none then some a else firstMissing rest actions

/-- Projects the rewards dictionary out of a `step` result (empty on error). -/
def rewardsOf : Except PyError StepResult → List (AgentID × Int)
  | .ok r => r.rewards
  | .error _ => []

/-- Projects the result out of a successful `step` call (defaulting on error). -/
def resultOf : Except PyError StepResult → StepResult
  | .ok r => r
  | .error _ => default

/-! Concrete material shared by the witnesses and counterexamples below. -/

/-- Concrete agent id `"A"`. -/
def agA : AgentID := "A"

/-- Concrete agent id `"B"`. -/
def agB : AgentID := "B"

/-- A concrete pass action. -/
def passAct : AgentAction := ⟨true, 0, 0, .up, false⟩

/-- A concrete observation. -/
def obs0 : Observation := ⟨0, 0, 0, 0, 0, false⟩

/-- A concrete well-formed 2-by-2 grid. -/
def gridW : Grid := ⟨["ab", "cd"]⟩

/-- A concrete grid factory with padding enabled. -/
def gfW : GridFactory := ⟨true, (2, 2), none, fun _ => gridW⟩

/-- A concrete grid factory with padding disabled. -/
def gfNoPad : GridFactory := ⟨false, (2, 2), none, fun _ => gridW⟩

/-- A concrete engine over `Nat` state (its turn counter): each step advances
the counter and returns observations and infos for agents `A` and `B`; the
game reports done once the counter reaches `doneAt`. -/
def cEngine (doneAt : Nat) : Engine Nat :=
  ⟨fun _ _ => 0,
   fun s _ => (s + 1, [(agA, obs0), (agB, obs0)], [(agA, ()), (agB, ())]),
   fun s => decide (doneAt ≤ s),
   fun s => s,
   fun _ _ => obs0,
   fun _ => (2, 2)⟩

/-- A concrete reward function returning the constant 5. -/
def constFive : Observation → AgentAction → Observation → Int := fun _ _ _ => 5

/-- A concrete freshly-constructed controller over agents `A`, `B` (the state
`PettingZooGenerals.mkEnv` produces with factory `gfW`, no truncation, reward
function `constFive`). -/
def envW : PettingZooGenerals Nat :=
  { possible_agents := [agA, agB]
    agents := [agA, agB]
    grid_factory := gfW
    truncation := none
    reward_fn := constFive
    render_mode := false
    prior_observations := none
    game := none
    replay := none
    gui := false
    obs_space_cache := []
    act_space_cache := [] }

/-- The joint action submitting a pass for both agents. -/
def allPass : JointAction := [(agA, passAct), (agB, passAct)]

/-! Further concrete states used below. -/

/-- A controller whose episode has ended (`agents = []`) with a live engine. -/
def envTerm : PettingZooGenerals Nat := { envW with agents := [], game := some 7 }

/-- A controller right after a first reset, before any step (engine live,
prior-observation cache unset). -/
def envPreStep : PettingZooGenerals Nat := { envW with game := some 0 }

/-- A controller mid-episode: engine live and the prior-observation cache
populated for both agents. -/
def envMid : PettingZooGenerals Nat :=
  { envW with game := some 0, prior_observations := some [(agA, obs0), (agB, obs0)] }

/-- The controller after the first reset of `envW` (generated grid, no
recording). -/
def envR1 : PettingZooGenerals Nat :=
  (PettingZooGenerals.reset (cEngine 99) envW none ⟨none, none⟩).snd

/-- The controller after one step of the first episode. -/
def envS1 : PettingZooGenerals Nat :=
  (PettingZooGenerals.step (cEngine 99) envR1 allPass).snd

/-- The controller after a second reset (start of the second episode). -/
def envR2 : PettingZooGenerals Nat :=
  (PettingZooGenerals.reset (cEngine 99) envS1 none ⟨none, none⟩).snd

/-! Theorems. -/

/-- C6: when the reset options supply an explicit grid, the seed argument has
no influence at all — the two reset calls return identical results and
identical post-call controller states. -/
theorem reset_seed_independent {σ : Type} (E : Engine σ) (c : PettingZooGenerals σ)
    (s1 s2 : Option Nat) (options : ResetOptions) (g : String)
    (hg : options.grid = some g) :
    PettingZooGenerals.reset E c s1 options = PettingZooGenerals.reset E c s2 options := by
  unfold PettingZooGenerals.reset
  rw [hg]

/-- Witness for C6 at a concrete controller, explicit grid text and the two
seeds `none` and `some 7`. -/
theorem reset_seed_independent_w :
    PettingZooGenerals.reset (cEngine 99) envW none ⟨some "ab\ncd", none⟩ =
      PettingZooGenerals.reset (cEngine 99) envW (some 7) ⟨some "ab\ncd", none⟩ :=
  reset_seed_independent (cEngine 99) envW none (some 7) ⟨some "ab\ncd", none⟩ "ab\ncd" rfl

/-- C3 (amended): a reset whose explicit grid specification is malformed fails
with `InvalidGrid` and leaves the engine, prior-observation cache and recorder
exactly as they were — but the active-agent list has already been overwritten
with the full configured set, so the pre-call active-agent set is not
preserved. -/
theorem reset_invalid_grid_state {σ : Type} (E : Engine σ) (c : PettingZooGenerals σ)
    (seed : Option Nat) (options : ResetOptions) (s : String)
    (hg : options.grid = some s) (hbad : Grid.parseMap s = .error .invalidGrid) :
    PettingZooGenerals.reset E c seed options =
      (.error .invalidGrid, { c with agents := c.possible_agents }) := by
  unfold PettingZooGenerals.reset
  rw [hg]
  simp only [hbad]

/-- Witness for the amended C3 at a concrete terminal-state controller and the
non-rectangular map text `"ab\nc"`. -/
theorem reset_invalid_grid_state_w :
    PettingZooGenerals.reset (cEngine 99) envTerm none ⟨some "ab\nc", none⟩ =
      (.error .invalidGrid, { envTerm with agents := envTerm.possible_agents }) :=
  reset_invalid_grid_state (cEngine 99) envTerm none ⟨some "ab\nc", none⟩ "ab\nc" rfl (by decide)

/-- C3 is false as stated: starting from a terminal controller (empty
active-agent set), a reset with a malformed explicit grid fails with
`InvalidGrid` but the active-agent set afterwards is the full configured set,
not the pre-call empty set. -/
theorem reset_invalid_grid_not_atomic :
    envTerm.agents = [] ∧
    (PettingZooGenerals.reset (cEngine 99) envTerm none ⟨some "ab\nc", none⟩).fst =
      .error .invalidGrid ∧
    (PettingZooGenerals.reset (cEngine 99) envTerm none ⟨some "ab\nc", none⟩).snd.agents =
      [agA, agB] := by
  refine ⟨rfl, ?_, ?_⟩ <;> rfl

/-- Helper: `reset` never touches the prior-observation cache, on any path
(explicit grid, generated grid, parse failure, with or without recording). -/
theorem reset_prior_unchanged {σ : Type} (E : Engine σ) (c : PettingZooGenerals σ)
    (seed : Option Nat) (options : ResetOptions) :
    ((PettingZooGenerals.reset E c seed options).snd).prior_observations =
      c.prior_observations := by
  rcases options with ⟨og, orf⟩
  cases og with
  | none => cases orf <;> rfl
  | some s =>
    unfold PettingZooGenerals.reset
    dsimp only
    cases hps : Grid.parseMap s with
    | error e => simp [hps]
    | ok g => cases orf <;> simp [hps]

/-- C2 (amended): `reset` leaves the prior-observation cache exactly as it was,
so a step yields reward 0.0 for every active agent only while the cache is
still unset — which holds after the first reset following construction, but
not after later resets, whose first step computes rewards through the
configured reward function from the previous episode's final observations. -/
theorem reset_keeps_prior_and_first_step_zero {σ : Type} (E : Engine σ)
    (c : PettingZooGenerals σ) (seed : Option Nat) (options : ResetOptions)
    (g : σ) (actions : JointAction)
    (hp : c.prior_observations = none) (hg : c.game = some g) :
    ((PettingZooGenerals.reset E c seed options).snd).prior_observations = none ∧
    (∃ r : StepResult, (PettingZooGenerals.step E c actions).fst = .ok r ∧
      r.rewards = c.agents.map (fun a => (a, (0 : Int)))) := by
  constructor
  · rw [reset_prior_unchanged, hp]
  · unfold PettingZooGenerals.step
    rw [hg]
    dsimp only
    rw [hp]
    exact ⟨_, rfl, rfl⟩

/-- Witness for the amended C2 at the concrete controller `envR1` (the state
right after the first reset). -/
theorem reset_keeps_prior_and_first_step_zero_w :
    ((PettingZooGenerals.reset (cEngine 99) envR1 none ⟨none, none⟩).snd).prior_observations =
      none ∧
    (∃ r : StepResult, (PettingZooGenerals.step (cEngine 99) envR1 allPass).fst = .ok r ∧
      r.rewards = envR1.agents.map (fun a => (a, (0 : Int)))) :=
  reset_keeps_prior_and_first_step_zero (cEngine 99) envR1 none ⟨none, none⟩ 0 allPass rfl rfl

/-- C2 is false as stated: after a second reset (controller `envR2`, reached by
reset, one step, reset), the active agents are `A`, `B` but the first step of
the new episode returns reward 5 (the configured constant reward function),
not 0.0, because the cache still holds the previous episode's observations. -/
theorem second_episode_first_step_reward_nonzero :
    envR2.agents = [agA, agB] ∧
    envR2.prior_observations.isSome = true ∧
    rewardsOf (PettingZooGenerals.step (cEngine 99) envR2 allPass).fst =
      [(agA, 5), (agB, 5)] := by
  exact ⟨rfl, rfl, rfl⟩

/-- C4 is false as stated: a step call on a terminal controller (empty
active-agent set, no intervening reset) succeeds instead of failing. -/
theorem step_after_terminal_not_rejected :
    envTerm.agents = [] ∧
    exceptIsOk (PettingZooGenerals.step (cEngine 99) envTerm []).fst = true :=
  ⟨rfl, rfl⟩

/-- C4 (amended): once the active-agent set is empty, a further step call
without an intervening reset is not rejected: the action is still forwarded to
the engine (the stored game advances), the call returns successfully with an
empty rewards dictionary, and the active-agent set stays empty. -/
theorem step_after_terminal_silent {σ : Type} (E : Engine σ) (c : PettingZooGenerals σ)
    (actions : JointAction) (g : σ)
    (hg : c.game = some g) (ha : c.agents = []) :
    (∃ r : StepResult, (PettingZooGenerals.step E c actions).fst = .ok r ∧ r.rewards = []) ∧
    (PettingZooGenerals.step E c actions).snd.agents = [] ∧
    (PettingZooGenerals.step E c actions).snd.game = some (E.stepFn g actions).1 := by
  unfold PettingZooGenerals.step
  rw [hg]
  dsimp only [rewards_block]
  rw [ha]
  cases hp : c.prior_observations with
  | none =>
    cases hr : c.replay <;> dsimp only [List.map, compute_rewards] <;>
      refine ⟨⟨_, rfl, rfl⟩, ?_, ?_⟩ <;> split <;> rfl
  | some prior =>
    cases hr : c.replay <;> dsimp only [List.map, compute_rewards] <;>
      refine ⟨⟨_, rfl, rfl⟩, ?_, ?_⟩ <;> split <;> rfl

/-- Witness for the amended C4 at the concrete terminal controller. -/
theorem step_after_terminal_silent_w :
    (∃ r : StepResult, (PettingZooGenerals.step (cEngine 99) envTerm []).fst = .ok r ∧
      r.rewards = []) ∧
    (PettingZooGenerals.step (cEngine 99) envTerm []).snd.agents = [] ∧
    (PettingZooGenerals.step (cEngine 99) envTerm []).snd.game =
      some ((cEngine 99).stepFn 7 []).1 :=
  step_after_terminal_silent (cEngine 99) envTerm [] 7 rfl rfl

/-- C1 is false as stated: on a controller whose prior-observation cache is
unset, a step whose joint action omits active agent `B` raises no error at all
— it succeeds, and the engine has received the action (the stored game
advanced), so no `MissingAction` validation happens before forwarding. -/
theorem step_missing_action_not_validated :
    agB ∈ envPreStep.agents ∧
    dget agB [(agA, passAct)] = none ∧
    exceptIsOk (PettingZooGenerals.step (cEngine 99) envPreStep [(agA, passAct)]).fst = true ∧
    (PettingZooGenerals.step (cEngine 99) envPreStep [(agA, passAct)]).snd.game = some 1 := by
  refine ⟨?_, ?_, ?_, ?_⟩ <;> decide

/-- Helper: when every active agent has a prior and a current observation but
some action is missing, the reward comprehension raises `KeyError` naming the
first missing agent. -/
theorem compute_rewards_missing (rf : Observation → AgentAction → Observation → Int)
    (prior : List (AgentID × Observation)) (actions : JointAction)
    (obs : List (AgentID × Observation)) (agents : List AgentID) (b : AgentID)
    (hp : ∀ a ∈ agents, (dget a prior).isSome = true)
    (ho : ∀ a ∈ agents, (dget a obs).isSome = true)
    (hm : firstMissing agents actions = some b) :
    compute_rewards rf prior actions obs agents = .error (.keyError b) := by
  induction agents with
  | nil => simp [firstMissing] at hm
  | cons a rest ih =>
    have hpa := hp a (by simp)
    have hoa := ho a (by simp)
    rcases Option.isSome_iff_exists.mp hpa with ⟨p, hpeq⟩
    rcases Option.isSome_iff_exists.mp hoa with ⟨o, hoeq⟩
    unfold firstMissing at hm
    unfold compute_rewards
    rw [hpeq, hoeq]
    by_cases hact : dget a actions = none
    · rw [if_pos hact] at hm
      rw [hact]
      rw [Option.some_inj] at hm
      rw [hm]
    · rw [if_neg hact] at hm
      rcases Option.ne_none_iff_exists.mp hact with ⟨act, hacteq⟩
      rw [← hacteq]
      rw [ih (fun x hx => hp x (by simp [hx])) (fun x hx => ho x (by simp [hx])) hm]

/-- C1 (amended): `step` performs no joint-action validation before forwarding
to the engine. A missing action for an active agent surfaces only inside the
reward computation — hence only when the prior-observation cache is set — as a
`KeyError` naming the first missing agent (no step count is tracked or
reported); the call then aborts after the engine has already advanced, leaving
the active-agent set and the prior-observation cache unchanged. -/
theorem step_missing_action_keyerror {σ : Type} (E : Engine σ)
    (c : PettingZooGenerals σ) (actions : JointAction) (g : σ)
    (prior : List (AgentID × Observation)) (b : AgentID)
    (hg : c.game = some g) (hp : c.prior_observations = some prior)
    (hpc : ∀ a ∈ c.agents, (dget a prior).isSome = true)
    (hoc : ∀ a ∈ c.agents, (dget a (E.stepFn g actions).2.1).isSome = true)
    (hm : firstMissing c.agents actions = some b) :
    (PettingZooGenerals.step E c actions).fst = .error (.keyError b) ∧
    (PettingZooGenerals.step E c actions).snd.agents = c.agents ∧
    (PettingZooGenerals.step E c actions).snd.prior_observations = some prior ∧
    (PettingZooGenerals.step E c actions).snd.game = some (E.stepFn g actions).1 := by
  have hcr := compute_rewards_missing c.reward_fn prior actions
    (E.stepFn g actions).2.1 c.agents b hpc hoc hm
  unfold PettingZooGenerals.step
  rw [hg]
  dsimp only [rewards_block]
  rw [hp]
  dsimp only
  rw [hcr]
  exact ⟨rfl, rfl, rfl, rfl⟩

/-- Witness for the amended C1: on the mid-episode controller `envMid`, a step
omitting agent `B`'s action fails with `KeyError "B"`, with agents and cache
unchanged and the engine advanced. -/
theorem step_missing_action_keyerror_w :
    (PettingZooGenerals.step (cEngine 99) envMid [(agA, passAct)]).fst =
      .error (.keyError agB) ∧
    (PettingZooGenerals.step (cEngine 99) envMid [(agA, passAct)]).snd.agents =
      envMid.agents ∧
    (PettingZooGenerals.step (cEngine 99) envMid [(agA, passAct)]).snd.prior_observations =
      some [(agA, obs0), (agB, obs0)] ∧
    (PettingZooGenerals.step (cEngine 99) envMid [(agA, passAct)]).snd.game =
      some ((cEngine 99).stepFn 0 [(agA, passAct)]).1 :=
  step_missing_action_keyerror (cEngine 99) envMid [(agA, passAct)] 0
    [(agA, obs0), (agB, obs0)] agB rfl rfl (by decide) (by decide) (by decide)

/-- Helper: invariants of any successful `step` call — the returned
observations and flags, and the post-call active-agent list and recorder. -/
theorem step_ok_inv {σ : Type} (E : Engine σ) (c : PettingZooGenerals σ)
    (actions : JointAction) (g : σ) (r : StepResult)
    (hg : c.game = some g)
    (hok : (PettingZooGenerals.step E c actions).fst = .ok r) :
    r.observations = (E.stepFn g actions).2.1 ∧
    r.terminated = E.is_done (E.stepFn g actions).1 ∧
    r.truncated = truncFlag c.truncation (E.time (E.stepFn g actions).1) ∧
    (PettingZooGenerals.step E c actions).snd.agents =
      (if r.terminated || r.truncated then [] else c.agents) ∧
    ((PettingZooGenerals.step E c actions).snd.replay =
      match c.replay with
      | some rp => some ⟨rp.name, rp.states ++ [(E.stepFn g actions).1],
          rp.store_count + (if r.terminated || r.truncated then 1 else 0)⟩
      | none => none) := by
  unfold PettingZooGenerals.step at hok ⊢
  rw [hg] at hok ⊢
  dsimp only at hok ⊢
  split at hok
  next e heq => simp at hok
  next rewards heq =>
    dsimp only at hok ⊢
    injection hok with h
    subst h
    dsimp only
    refine ⟨rfl, rfl, rfl, ?_, ?_⟩ <;>
      cases hcr : c.replay <;>
      by_cases hfl : (E.is_done (E.stepFn g actions).1 ||
        truncFlag c.truncation (E.time (E.stepFn g actions).1)) = true <;>
      simp [hcr, hfl]

/-- C5: with a truncation limit N configured, a successful step returns
`truncated = true` exactly when the engine's post-step turn counter has
reached or passed N (so the flag is false strictly below N), and the
active-agent set empties on exactly the steps whose terminated or truncated
flag is true. -/
theorem step_truncation_boundary {σ : Type} (E : Engine σ) (c : PettingZooGenerals σ)
    (actions : JointAction) (g : σ) (r : StepResult) (N : Nat)
    (hN : c.truncation = some N) (hg : c.game = some g) (hne : c.agents ≠ [])
    (hok : (PettingZooGenerals.step E c actions).fst = .ok r) :
    (r.truncated = true ↔ N ≤ E.time (E.stepFn g actions).1) ∧
    ((PettingZooGenerals.step E c actions).snd.agents = [] ↔
      (r.terminated = true ∨ r.truncated = true)) := by
  obtain ⟨-, hterm, htrunc, hagents, -⟩ := step_ok_inv E c actions g r hg hok
  constructor
  · rw [htrunc, hN]
    simp [truncFlag, ge_iff_le]
  · rw [hagents]
    by_cases h1 : r.terminated = true <;> by_cases h2 : r.truncated = true <;>
      simp [h1, h2, hne]

/-- C10: a successful step returns `terminated` and `truncated` as single
booleans shared by every agent — `terminated` is exactly the engine's done
report and `truncated` exactly the turn-limit check on the post-step engine
state. -/
theorem step_flags_shared {σ : Type} (E : Engine σ) (c : PettingZooGenerals σ)
    (actions : JointAction) (g : σ) (r : StepResult)
    (hg : c.game = some g)
    (hok : (PettingZooGenerals.step E c actions).fst = .ok r) :
    r.terminated = E.is_done (E.stepFn g actions).1 ∧
    r.truncated = truncFlag c.truncation (E.time (E.stepFn g actions).1) :=
  ⟨(step_ok_inv E c actions g r hg hok).2.1,
   (step_ok_inv E c actions g r hg hok).2.2.1⟩

/-- C7: a recorder opened by `reset` holds exactly one snapshot at reset time
with no finalize yet; and each successful `step` while agents remain active
appends exactly one snapshot and finalizes exactly once if and only if that
step terminates or truncates the episode. -/
theorem replay_append_finalize {σ : Type} (E : Engine σ) (c : PettingZooGenerals σ)
    (seed : Option Nat) (options : ResetOptions) (nm : String)
    (actions : JointAction) (g : σ) (rp : Replay σ) (r : StepResult)
    (hrf : options.replay_file = some nm) (hnog : options.grid = none)
    (hrep : c.replay = some rp) (hne : c.agents ≠ []) (hg : c.game = some g)
    (hok : (PettingZooGenerals.step E c actions).fst = .ok r) :
    (∃ rp0 : Replay σ, (PettingZooGenerals.reset E c seed options).snd.replay = some rp0 ∧
      rp0.states.length = 1 ∧ rp0.store_count = 0) ∧
    (∃ rp1 : Replay σ, (PettingZooGenerals.step E c actions).snd.replay = some rp1 ∧
      rp1.states.length = rp.states.length + 1 ∧
      rp1.store_count = rp.store_count + (if r.terminated || r.truncated then 1 else 0)) := by
  constructor
  · unfold PettingZooGenerals.reset
    rw [hnog, hrf]
    dsimp only
    exact ⟨_, rfl, rfl, rfl⟩
  · obtain ⟨-, -, -, -, hrep2⟩ := step_ok_inv E c actions g r hg hok
    rw [hrep] at hrep2
    dsimp only at hrep2
    exact ⟨_, hrep2, by simp, rfl⟩

/-- Helper: a cache hit makes the space query return the cached descriptor and
leave the controller untouched. -/
theorem observation_space_hit {σ : Type} (E : Engine σ) (c : PettingZooGenerals σ)
    (agent : AgentID) (o : ObsSpace)
    (h : dget agent c.obs_space_cache = some o) :
    PettingZooGenerals.observation_space E c agent = (.ok o, c) := by
  unfold PettingZooGenerals.observation_space
  rw [h]

/-- Helper: after a successful query, the returned descriptor is in the
post-call cache. -/
theorem observation_space_cached {σ : Type} (E : Engine σ) (c : PettingZooGenerals σ)
    (agent : AgentID) (o : ObsSpace)
    (ho : (PettingZooGenerals.observation_space E c agent).fst = .ok o) :
    dget agent ((PettingZooGenerals.observation_space E c agent).snd).obs_space_cache =
      some o := by
  unfold PettingZooGenerals.observation_space at ho ⊢
  split at ho
  next v hv => rw [hv]; injection ho with h; rw [h]
  next hv =>
    split at ho
    next hmem =>
      split at ho
      next dims hdims =>
        dsimp only at ho ⊢
        injection ho with h2
        simp [dget, h2, hmem]
      next hdims => simp at ho
    next hmem => simp at ho

/-- Helper: cache-hit behavior of `action_space`. -/
theorem action_space_hit {σ : Type} (E : Engine σ) (c : PettingZooGenerals σ)
    (agent : AgentID) (a : ActSpace)
    (h : dget agent c.act_space_cache = some a) :
    PettingZooGenerals.action_space E c agent = (.ok a, c) := by
  unfold PettingZooGenerals.action_space
  rw [h]

/-- Helper: after a successful query, the returned action descriptor is in the
post-call cache. -/
theorem action_space_cached {σ : Type} (E : Engine σ) (c : PettingZooGenerals σ)
    (agent : AgentID) (a : ActSpace)
    (ha : (PettingZooGenerals.action_space E c agent).fst = .ok a) :
    dget agent ((PettingZooGenerals.action_space E c agent).snd).act_space_cache =
      some a := by
  unfold PettingZooGenerals.action_space at ha ⊢
  split at ha
  next v hv => rw [hv]; injection ha with h; rw [h]
  next hv =>
    split at ha
    next hmem =>
      split at ha
      next dims hdims =>
        dsimp only at ha ⊢
        injection ha with h2
        simp [dget, h2, hmem]
      next hdims => simp at ha
    next hmem => simp at ha

/-- C8: querying `observation_space` (respectively `action_space`) twice for
the same agent id on the same controller returns equal descriptors — the
second call, on the state left by the first, returns exactly the first
result. -/
theorem spaces_idempotent {σ : Type} (E : Engine σ) (c : PettingZooGenerals σ)
    (agent : AgentID) (o : ObsSpace) (a : ActSpace)
    (ho : (PettingZooGenerals.observation_space E c agent).fst = .ok o)
    (ha : (PettingZooGenerals.action_space E c agent).fst = .ok a) :
    (PettingZooGenerals.observation_space E
      (PettingZooGenerals.observation_space E c agent).snd agent).fst = .ok o ∧
    (PettingZooGenerals.action_space E
      (PettingZooGenerals.action_space E c agent).snd agent).fst = .ok a := by
  constructor
  · rw [observation_space_hit E _ agent o (observation_space_cached E c agent o ho)]
  · rw [action_space_hit E _ agent a (action_space_cached E c agent a ha)]

/-- C9: a freshly-constructed controller has no game instance, so before the
first reset a `step` call fails with `AttributeError` on `game`; and when the
grid factory's padding is disabled, `observation_space` / `action_space` for a
configured agent fail the same way (no grid dimensions are available). -/
theorem pre_reset_failures {σ : Type} (E : Engine σ) (agents : List AgentID)
    (gf : GridFactory) (truncation : Option Nat)
    (reward_fn : Observation → AgentAction → Observation → Int) (render_mode : Bool)
    (c : PettingZooGenerals σ) (actions : JointAction) (agent : AgentID)
    (hinit : PettingZooGenerals.mkEnv σ agents gf truncation reward_fn render_mode = .ok c) :
    (PettingZooGenerals.step E c actions).fst = .error (.attributeError "game") ∧
    (gf.padding = false → agent ∈ agents →
      (PettingZooGenerals.observation_space E c agent).fst =
        .error (.attributeError "game") ∧
      (PettingZooGenerals.action_space E c agent).fst =
        .error (.attributeError "game")) := by
  unfold PettingZooGenerals.mkEnv at hinit
  split at hinit
  next hnodup =>
    injection hinit with h
    subst h
    refine ⟨rfl, fun hpad hmem => ?_⟩
    unfold PettingZooGenerals.observation_space PettingZooGenerals.action_space
    dsimp only [dget]
    rw [hpad]
    simp [hmem]
  next hnodup => simp at hinit

/-- A controller mid-episode with truncation limit 1 configured. -/
def envTr : PettingZooGenerals Nat :=
  { envW with game := some 0, truncation := some 1 }

/-- The result of the truncating step on `envTr`. -/
def trRes : StepResult :=
  resultOf (PettingZooGenerals.step (cEngine 99) envTr allPass).fst

/-- Witness for C5 at the concrete controller `envTr`: its first step reaches
the turn limit 1, so the truncated flag and agent emptying are observed. -/
theorem step_truncation_boundary_w :
    (trRes.truncated = true ↔ 1 ≤ (cEngine 99).time ((cEngine 99).stepFn 0 allPass).1) ∧
    ((PettingZooGenerals.step (cEngine 99) envTr allPass).snd.agents = [] ↔
      (trRes.terminated = true ∨ trRes.truncated = true)) :=
  step_truncation_boundary (cEngine 99) envTr allPass 0 trRes 1 rfl rfl (by decide) rfl

/-- The result of a mid-episode step on `envPreStep`. -/
def flagRes : StepResult :=
  resultOf (PettingZooGenerals.step (cEngine 99) envPreStep allPass).fst

/-- Witness for C10 at the concrete controller `envPreStep`. -/
theorem step_flags_shared_w :
    flagRes.terminated = (cEngine 99).is_done ((cEngine 99).stepFn 0 allPass).1 ∧
    flagRes.truncated =
      truncFlag envPreStep.truncation ((cEngine 99).time ((cEngine 99).stepFn 0 allPass).1) :=
  step_flags_shared (cEngine 99) envPreStep allPass 0 flagRes rfl rfl

/-- A recording controller one step from truncation. -/
def envRep : PettingZooGenerals Nat :=
  { envW with game := some 0, truncation := some 1, replay := some ⟨"r", [0], 0⟩ }

/-- The result of the final (truncating) step on `envRep`. -/
def repRes : StepResult :=
  resultOf (PettingZooGenerals.step (cEngine 99) envRep allPass).fst

/-- Witness for C7 at the concrete recording controller `envRep`. -/
theorem replay_append_finalize_w :
    (∃ rp0 : Replay Nat,
      (PettingZooGenerals.reset (cEngine 99) envRep none ⟨none, some "r"⟩).snd.replay =
        some rp0 ∧ rp0.states.length = 1 ∧ rp0.store_count = 0) ∧
    (∃ rp1 : Replay Nat,
      (PettingZooGenerals.step (cEngine 99) envRep allPass).snd.replay = some rp1 ∧
      rp1.states.length = (1 : Nat) + 1 ∧
      rp1.store_count = 0 + (if repRes.terminated || repRes.truncated then 1 else 0)) :=
  replay_append_finalize (cEngine 99) envRep none ⟨none, some "r"⟩ "r" allPass 0
    ⟨"r", [0], 0⟩ repRes rfl rfl rfl (by decide) rfl rfl

/-- Witness for C8 at the concrete controller `envW` and agent `A`. -/
theorem spaces_idempotent_w :
    (PettingZooGenerals.observation_space (cEngine 99)
      (PettingZooGenerals.observation_space (cEngine 99) envW agA).snd agA).fst =
      .ok ⟨(2, 2), 100000, 100000, 4⟩ ∧
    (PettingZooGenerals.action_space (cEngine 99)
      (PettingZooGenerals.action_space (cEngine 99) envW agA).snd agA).fst =
      .ok [2, 2, 2, 4, 2] :=
  spaces_idempotent (cEngine 99) envW agA ⟨(2, 2), 100000, 100000, 4⟩
    [2, 2, 2, 4, 2] rfl rfl

/-- The concrete fresh controller configured with a padding-disabled factory. -/
def envNoPad : PettingZooGenerals Nat := { envW with grid_factory := gfNoPad }

/-- Witness for C9 at the concrete fresh controller `envNoPad` (padding
disabled, no reset yet). -/
theorem pre_reset_failures_w :
    (PettingZooGenerals.step (cEngine 99) envNoPad allPass).fst =
      .error (.attributeError "game") ∧
    (PettingZooGenerals.observation_space (cEngine 99) envNoPad agA).fst =
      .error (.attributeError "game") ∧
    (PettingZooGenerals.action_space (cEngine 99) envNoPad agA).fst =
      .error (.attributeError "game") :=
  ⟨(pre_reset_failures (cEngine 99) [agA, agB] gfNoPad none constFive false envNoPad
      allPass agA rfl).1,
   (pre_reset_failures (cEngine 99) [agA, agB] gfNoPad none constFive false envNoPad
      allPass agA rfl).2 rfl (by decide)⟩
